import Mathlib

/-!
Verification of the patchbay SCPI command-compiler core
(`patchbay/hardware/scpi.py` and `patchbay/hardware/subsystem.py`)
against its natural-language specification.

The Python code is shallowly embedded: Python values are `PyVal`, raised
exceptions are `PyErr`, fallible code returns `Except PyErr`.  Ordered
Python dictionaries are association lists with update-in-place semantics
(`dget`, `dset`, ...).  `str.format` is embedded by tokenizing the format
string and filling placeholder fields from positional and keyword
arguments.
-/

namespace Patchbay

/-- The two format-string brace characters, written via their code points so
that they can be used without clashing with string-interpolation syntax. -/
def lbrace : Char := Char.ofNat 123

/-- Closing brace character. -/
def rbrace : Char := Char.ofNat 125

/-- A pint unit, as far as the core uses it: a dimension tag and a scale
factor relative to the base unit of that dimension.  The units library is an
external collaborator (spec section 1); only `Quantity.to` conversion and
dimensionality checking are relied upon. -/
structure UnitSpec where
  dim : String
  scale : ℚ
deriving DecidableEq, Repr

/-- Python runtime values, as far as the SCPI converters need them.
`float` is modelled as an exact rational (none of the embedded code does
rounding-sensitive float arithmetic), `qty` is a pint quantity. -/
inductive PyVal where
  | int (n : ℤ)
  | float (q : ℚ)
  | str (s : String)
  | bool (b : Bool)
  | qty (mag : ℚ) (u : UnitSpec)
  | pair (a b : PyVal)
deriving DecidableEq, Repr

/-- Python exceptions raised by the embedded code.  `keyError`,
`indexError`, `attributeError`, `valueError`, `typeError` are the built-ins
actually raised by the source; `dimensionalityError` is pint's
`DimensionalityError`.  `parentLifetimeError` is modelled from the spec:
section 7 of the spec names a dedicated `ParentLifetimeError`, but no
exception class of that name (nor any custom exception class at all) exists
anywhere in the source; the constructor is included only so that the
corresponding claim is statable. -/
inductive PyErr where
  | keyError (k : PyVal)
  | indexError
  | attributeError (msg : String)
  | valueError (msg : String)
  | typeError (msg : String)
  | dimensionalityError (fromDim toDim : String)
  | parentLifetimeError
deriving DecidableEq, Repr

/-- Python truthiness for the embedded value types. -/
def pyTruthy : PyVal → Bool
  | .int n => n ≠ 0
  | .float q => q ≠ 0
  | .str s => s ≠ ""
  | .bool b => b
  | .qty m _ => m ≠ 0
  | .pair _ _ => true

/-- Decimal digit run to a natural number; `none` on an empty run or a
non-digit character. -/
def digitsToNat? (cs : List Char) : Option ℕ :=
  match cs with
  | [] => none
  | _ =>
    cs.foldl
      (fun acc c =>
        match acc with
        | none => none
        | some a => if c.isDigit then some (a * 10 + (c.toNat - 48)) else none)
      (some 0)

/-- Python `int(string)`: optional sign followed by decimal digits
(whitespace and underscore grouping are not modelled; no embedded input
uses them). -/
def parseIntStr (s : String) : Except PyErr ℤ :=
  match s.data with
  | '+' :: rest =>
    match digitsToNat? rest with
    | some n => .ok (n : ℤ)
    | none => .error (.valueError ("invalid literal for int: " ++ s))
  | '-' :: rest =>
    match digitsToNat? rest with
    | some n => .ok (-(n : ℤ))
    | none => .error (.valueError ("invalid literal for int: " ++ s))
  | cs =>
    match digitsToNat? cs with
    | some n => .ok (n : ℤ)
    | none => .error (.valueError ("invalid literal for int: " ++ s))

/-- Python `int(value)`: identity on ints, 1/0 on booleans, truncation
toward zero on floats, string parsing on strings, `TypeError` otherwise. -/
def pyInt : PyVal → Except PyErr ℤ
  | .int n => .ok n
  | .bool b => .ok (if b then 1 else 0)
  | .float q => .ok (if 0 ≤ q then ⌊q⌋ else ⌈q⌉)
  | .str s => parseIntStr s
  | v => .error (.typeError ("int argument must be a string or a number, not " ++ (repr v).pretty))

/-- Decimal fraction digits to a rational, e.g. `[5]` for `.5` gives `1/2`. -/
def fracToRat (cs : List Char) : ℚ :=
  (cs.foldr (fun c acc => if c.isDigit then ((c.toNat - 48 : ℕ) + acc) / 10 else 0) 0 : ℚ)

/-- Python `float(string)` on unsigned decimal literals `ddd[.ddd]`. -/
def parseFloatCore (cs : List Char) : Option ℚ :=
  let ip := cs.takeWhile (fun c => c.isDigit)
  let rest := cs.dropWhile (fun c => c.isDigit)
  match rest with
  | [] => (digitsToNat? ip).map (fun n => (n : ℚ))
  | '.' :: fp =>
    if fp.all (fun c => c.isDigit) ∧ (ip ≠ [] ∨ fp ≠ []) then
      some ((digitsToNat? ip).getD 0 + fracToRat fp)
    else none
  | _ => none

/-- Python `float(value)` for the embedded value types. -/
def pyFloat : PyVal → Except PyErr ℚ
  | .int n => .ok (n : ℚ)
  | .float q => .ok q
  | .bool b => .ok (if b then 1 else 0)
  | .str s =>
    (match s.data with
     | '+' :: rest =>
       match parseFloatCore rest with
       | some q => .ok q
       | none => .error (.valueError ("could not convert string to float: " ++ s))
     | '-' :: rest =>
       match parseFloatCore rest with
       | some q => .ok (-q)
       | none => .error (.valueError ("could not convert string to float: " ++ s))
     | cs =>
       match parseFloatCore cs with
       | some q => .ok q
       | none => .error (.valueError ("could not convert string to float: " ++ s)))
  | v => .error (.typeError ("float argument must be a string or a number, not " ++ (repr v).pretty))

/-- Python `str(value)`.  Only the `int`, `str` and `bool` renderings are
relied upon by any theorem; the `float` rendering uses Lean's exact
rational notation and stands in for Python's float repr. -/
def pyStr : PyVal → String
  | .int n => toString n
  | .float q => toString q
  | .str s => s
  | .bool b => if b then "True" else "False"
  | .qty m u => toString m ++ " " ++ u.dim
  | .pair a b => "(" ++ pyStr a ++ ", " ++ pyStr b ++ ")"

/-! ### Ordered dictionaries

Python `dict`s are embedded as insertion-ordered association lists.
Assignment to an existing key updates it in place (keeping its position);
assignment to a fresh key appends. -/

/-- `d[k]`, returning `none` when the key is absent (first occurrence;
dict keys are unique). -/
def dget {κ α : Type} [DecidableEq κ] : List (κ × α) → κ → Option α
  | [], _ => none
  | p :: rest, k => if p.1 = k then some p.2 else dget rest k

/-- `d[k] = v`: update in place if present (keeping the entry's position),
append otherwise. -/
def dset {κ α : Type} [DecidableEq κ] : List (κ × α) → κ → α → List (κ × α)
  | [], k, v => [(k, v)]
  | p :: rest, k, v =>
    if p.1 = k then (k, v) :: rest else p :: dset rest k v

/-- Removal of a key (first occurrence; dict keys are unique). -/
def dremove {κ α : Type} [DecidableEq κ] (d : List (κ × α)) (k : κ) :
    List (κ × α) :=
  match d with
  | [] => []
  | p :: rest => if p.1 = k then rest else p :: dremove rest k

/-! ### `str.format`

The format string is tokenized into literal characters and `\x7bfield\x7d`
placeholders, then the placeholders are filled left to right: an
empty-named field consumes the next positional argument (`IndexError` when
exhausted), a named field is looked up among the keyword arguments
(`KeyError` when absent).  Malformed format strings (a stray brace) fail
with `ValueError`, as in Python.  The `\x7b\x7b` escape is not modelled: no
command string in the source uses it.  Unlike Python's on-the-fly scanner,
tokenization happens up front, so a malformed tail is reported before a
missing key; no command string in the source is malformed, so the orders
agree on everything the code dispatches. -/

/-- One token of a format string. -/
inductive Tok where
  | lit (c : Char)
  | field (name : String)
deriving DecidableEq, Repr

/-- The tokenizer's state machine: the second argument is `none` between
placeholders and `some fld` (the field name read so far, reversed) inside
one.  Returns `none` when a brace is unmatched. -/
def tokenizeSt : List Char → Option (List Char) → Option (List Tok)
  | [], none => some []
  | [], some _ => none
  | c :: rest, none =>
    if c = rbrace then none
    else if c = lbrace then tokenizeSt rest (some [])
    else (tokenizeSt rest none).map (fun ts => .lit c :: ts)
  | c :: rest, some fld =>
    if c = rbrace then
      (tokenizeSt rest none).map (fun ts => .field (String.mk fld.reverse) :: ts)
    else tokenizeSt rest (some (c :: fld))

/-- Tokenize a format string; `none` when a brace is unmatched. -/
def tokenize (cs : List Char) : Option (List Tok) :=
  tokenizeSt cs none

/-- Fill tokens with positional and keyword arguments, left to right. -/
def fill (named : List (String × PyVal)) :
    List Tok → List PyVal → Except PyErr String
  | [], _ => .ok ""
  | .lit c :: ts, pos => (fill named ts pos).map (fun t => String.mk [c] ++ t)
  | .field f :: ts, pos =>
    if f = "" then
      match pos with
      | [] => .error .indexError
      | a :: pos2 => (fill named ts pos2).map (fun t => pyStr a ++ t)
    else
      match dget named f with
      | none => .error (.keyError (.str f))
      | some v => (fill named ts pos).map (fun t => pyStr v ++ t)

/-- `command.format(*pos, **named)`. -/
def pyFormat (command : String) (pos : List PyVal)
    (named : List (String × PyVal)) : Except PyErr String :=
  match tokenize command.data with
  | none => .error (.valueError "bad format string: single brace encountered")
  | some ts => fill named ts pos

/-- The placeholder names of a token list, in order. -/
def fieldsOf (ts : List Tok) : List String :=
  ts.filterMap (fun t => match t with | .field f => some f | .lit _ => none)

/-- The placeholder names of a format string, in order. -/
def templateFields (command : String) : List String :=
  match tokenize command.data with
  | none => []
  | some ts => fieldsOf ts

/-- Substitution failures: the exceptions `str.format` raises when a
placeholder has no corresponding argument (`KeyError` for a named field,
`IndexError` for a positional one), as opposed to transport or conversion
failures. -/
def isSubstErr : PyErr → Bool
  | .keyError _ => true
  | .indexError => true
  | _ => false

/-- `True` when the string contains neither brace (used by the source as
the test for unfilled placeholders, and by theorems about plain literal
commands). -/
def braceFree (s : String) : Bool :=
  s.data.all (fun c => ¬(c = lbrace ∨ c = rbrace))

/-- The check the source performs: whether a command still contains an
opening brace (Python `c in command` with `c = lbrace`). -/
def hasLBrace (s : String) : Bool :=
  s.data.any (fun c => c = lbrace)

/-! ### Converter registry (`scpi.py`) -/

/-- `ScpiTypeConverter = namedtuple('ScpiTypeConverter', 'query, write')`;
either half may be `None`. -/
structure ScpiTypeConverter where
  query : Option (PyVal → Except PyErr PyVal)
  write : Option (PyVal → Except PyErr PyVal)

/-- `str.strip(c)`: remove every copy of `c` from both ends. -/
def pyStrip (c : Char) (s : String) : String :=
  String.mk (((s.data.dropWhile (fun d => d = c)).reverse.dropWhile
    (fun d => d = c)).reverse)

/-- `s.split(sep, 1)` unpacked into two parts: split at the first comma;
unpacking fails with `ValueError` when there is no comma. -/
def splitOnceComma (s : String) : Except PyErr (String × String) :=
  let l := s.data.takeWhile (fun c => c ≠ ',')
  match s.data.dropWhile (fun c => c ≠ ',') with
  | [] => .error (.valueError "not enough values to unpack")
  | _ :: r => .ok (String.mk l, String.mk r)

/-- `parse_errors(err_str)`: split an error string `<int>,"description"` at
the first comma, parse the first part with `int()`, strip quote characters
from both ends of the second part (`err_msg.strip(quote)`). -/
def parse_errors : PyVal → Except PyErr PyVal
  | .str s => do
    let (numPart, msgPart) ← splitOnceComma s
    let n ← parseIntStr numPart
    pure (.pair (.int n) (.str (pyStrip '"' msgPart)))
  | _ => .error (.attributeError "object has no attribute split")

/-- `scpi_error()`: query is `parse_errors`, write is `None`. -/
def scpi_error : ScpiTypeConverter :=
  ⟨some parse_errors, none⟩

/-- The query half of `scpi_bool`: `lambda v: bool(int(v))`. -/
def scpi_bool_query (v : PyVal) : Except PyErr PyVal := do
  let n ← pyInt v
  pure (.bool (decide (n ≠ 0)))

/-- The write half of `scpi_bool`: `int`. -/
def scpi_bool_write (v : PyVal) : Except PyErr PyVal := do
  let n ← pyInt v
  pure (.int n)

/-- `scpi_bool()`. -/
def scpi_bool : ScpiTypeConverter :=
  ⟨some scpi_bool_query, some scpi_bool_write⟩

/-- The unit registry `ureg`, for the unit strings the embedding needs;
any other symbol is treated as the base unit of its own dimension. -/
def ureg (u : String) : UnitSpec :=
  if u = "Hz" then ⟨"frequency", 1⟩
  else if u = "mHz" then ⟨"frequency", 1/1000⟩
  else if u = "kHz" then ⟨"frequency", 1000⟩
  else if u = "m" then ⟨"length", 1⟩
  else if u = "mm" then ⟨"length", 1/1000⟩
  else if u = "J" then ⟨"energy", 1⟩
  else if u = "V" then ⟨"voltage", 1⟩
  else if u = "A" then ⟨"current", 1⟩
  else ⟨u, 1⟩

/-- `qty_write_converter(unit_str)`'s inner `write_converter`: convert the
value to the target base unit and extract the magnitude.  A value that is
not a pint quantity has no `.to` attribute, so the `AttributeError` is
re-raised as `ValueError("Value has no units.")`; a quantity of another
dimension makes pint's `.to` raise `DimensionalityError`. -/
def qty_write_converter (u : UnitSpec) : PyVal → Except PyErr PyVal
  | .qty m us =>
    if us.dim = u.dim then .ok (.float (m * us.scale / u.scale))
    else .error (.dimensionalityError us.dim u.dim)
  | _ => .error (.valueError "Value has no units.")

/-- The percent write branch of `scpi_qty`: `lambda v: v * 100`. -/
def pyMul100 : PyVal → Except PyErr PyVal
  | .int n => .ok (.int (n * 100))
  | .float q => .ok (.float (q * 100))
  | .bool b => .ok (.int (if b then 100 else 0))
  | .qty m u => .ok (.qty (m * 100) u)
  | v => .error (.typeError ("unsupported operand types: " ++ (repr v).pretty))

/-- `scpi_qty(unit_str)`: percent is a plain ratio; otherwise query parses
a float and attaches the base unit, write converts through
`qty_write_converter`. -/
def scpi_qty (unit_str : String) : ScpiTypeConverter :=
  if unit_str = "%" then
    ⟨some (fun v => do let q ← pyFloat v; pure (.float (q / 100))),
     some pyMul100⟩
  else
    ⟨some (fun v => do let q ← pyFloat v; pure (.qty q (ureg unit_str))),
     some (qty_write_converter (ureg unit_str))⟩

/-- `{v: k for k, v in choices.items()}`: inversion of an ordered dict
(on duplicate values, later keys overwrite earlier ones in place). -/
def dictInvert (d : List (String × String)) : List (String × String) :=
  d.foldl (fun acc p => dset acc p.2 p.1) []

/-- The query half of `scpi_choice`: `lambda v: inv_choices[v]`.  A lookup
miss is a `KeyError` carrying the unknown device token. -/
def scpi_choice_query (choices : List (String × String)) (v : PyVal) :
    Except PyErr PyVal :=
  match v with
  | .str s =>
    match dget (dictInvert choices) s with
    | some k => .ok (.str k)
    | none => .error (.keyError (.str s))
  | _ => .error (.keyError v)

/-- The write half of `scpi_choice`: `lambda v: choices[v]`. -/
def scpi_choice_write (choices : List (String × String)) (v : PyVal) :
    Except PyErr PyVal :=
  match v with
  | .str s =>
    match dget choices s with
    | some t => .ok (.str t)
    | none => .error (.keyError (.str s))
  | _ => .error (.keyError v)

/-- `scpi_choice(choices)` for a dict argument (the list form, where
Python and instrument names coincide, is not exercised by any claim). -/
def scpi_choice (choices : List (String × String)) : ScpiTypeConverter :=
  ⟨some (scpi_choice_query choices), some (scpi_choice_write choices)⟩

/-! ### Instances, command building and dispatch (`scpi.py`) -/

/-- A subsystem instance at runtime.  `parent` is the weak reference
created by the `__init__` functions (`some ()` while the parent is alive,
`none` once it has been garbage collected; the parent object itself, which
owns the transport, is opaque to the claims).  `channel_idx` is set by
`subsystem.py`'s `subsystem_init`; `keys` is the placeholder map created by
`scpi.py`'s blank-subsystem `__init__` (`self.keys = \x7b\x7d`).
`subsystem.py`'s `subsystem_init` creates no keys mapping at all; it is
modelled as the empty map, which is the generous reading. -/
structure Instance where
  parent : Option Unit
  channel_idx : Option ℕ := none
  keys : List (String × PyVal) := []
deriving DecidableEq, Repr

/-- `self._parent().device`: dereference the weak parent and fetch the
transport.  A dead weak reference returns `None`, and the attribute access
on `None` raises `AttributeError` — there is no dedicated lifetime check in
the source. -/
def resolve_device (self : Instance) : Except PyErr Unit :=
  match self.parent with
  | some u => .ok u
  | none => .error (.attributeError "NoneType object has no attribute device")

/-- `_build_command(base_cmd, post=None, *, is_query=True)`: append `?` for
queries, then the keyword, or ` \x7bvalue\x7d` for a write with no keyword. -/
def build_command (base_cmd : String) (post : Option String)
    (is_query : Bool := true) : String :=
  let command := base_cmd ++ (if is_query then "?" else "")
  if (post.getD "") ≠ "" then command ++ " " ++ post.getD ""
  else if ¬is_query then command ++ " " ++ String.mk [lbrace] ++ "value" ++ String.mk [rbrace]
  else command

/-- `_write_func`'s placeholder branch with a converter:
`value = converter(value)` runs first, then the callee
`self._parent().device.write` is resolved, then the argument
`command.format(**self.keys, value=value)` is built; `.ok s` means the
string `s` was handed to the transport's `write`, and any `.error` means
nothing was sent. -/
def write_func_fmt (command : String) (conv : PyVal → Except PyErr PyVal)
    (self : Instance) (value : PyVal) : Except PyErr String := do
  let v ← conv value
  let _ ← resolve_device self
  pyFormat command [] (dset self.keys "value" v)

/-- `_write_func`'s placeholder branch without a converter:
`self._parent().device.write(command.format(**self.keys))`. -/
def write_func_fmt_noconv (command : String) (self : Instance) :
    Except PyErr String := do
  let _ ← resolve_device self
  pyFormat command [] self.keys

/-- `_write_func`'s literal branch: write the command string as is. -/
def write_func_plain (command : String) (self : Instance) :
    Except PyErr String := do
  let _ ← resolve_device self
  pure command

/-- `_query_func`'s placeholder branch:
`converter(self._parent().device.query(command.format(*args)))`.  `reply`
is the transport oracle; it is consulted only after the command string
formats successfully. -/
def query_func_fmt (command : String) (conv : PyVal → Except PyErr PyVal)
    (self : Instance) (args : List PyVal) (reply : String → String) :
    Except PyErr PyVal := do
  let _ ← resolve_device self
  let s ← pyFormat command args []
  conv (.str (reply s))

/-- `_query_func`'s literal branch. -/
def query_func_plain (command : String) (conv : PyVal → Except PyErr PyVal)
    (self : Instance) (reply : String → String) : Except PyErr PyVal := do
  let _ ← resolve_device self
  conv (.str (reply command))

/-- A compiled Python `property`: optional getter and setter. -/
structure PyProperty where
  fget : Option (Instance → (String → String) → Except PyErr PyVal)
  fset : Option (Instance → PyVal → Except PyErr String)

/-- Assignment through a property: with no setter Python raises
`AttributeError` (this is the behaviour the source's own test pins down
for the error converter). -/
def prop_set (p : PyProperty) (self : Instance) (v : PyVal) :
    Except PyErr String :=
  match p.fset with
  | none => .error (.attributeError "cannot set attribute")
  | some f => f self v

/-- The property branch of `add_scpi_cmd` (a base command without
placeholders): the getter exists when `can_query` holds and the converter
has a query half, the setter when `can_write` holds and the converter has
a write half. -/
def add_scpi_cmd_property (base_cmd : String) (conv : ScpiTypeConverter)
    (can_query : Bool := true) (can_write : Bool := true) : PyProperty :=
  { fget :=
      match conv.query with
      | some q =>
        if can_query then
          some (fun self reply =>
            query_func_plain (build_command base_cmd none true) q self reply)
        else none
      | none => none
    fset :=
      match conv.write with
      | some w =>
        if can_write then
          some (fun self value =>
            write_func_fmt (build_command base_cmd none false) w self value)
        else none
      | none => none }

/-! ### Subsystem factory (`subsystem.py`) -/

/-- The shape of one attribute installed on a subsystem class by
`SubsystemFactory.add_cmd`.  The factory's `query_func`/`write_func` are
abstract (`NotImplementedError` in the base class), so only the shape of
each attribute is meaningful here: `prop g s` is a `property` with getter
presence `g` and setter presence `s`; `qMethod` is the `get_<name>` method;
`wMethod c` is the write method (`set_<name>` when a write converter is
present, the bare `<name>` action otherwise); `wMethodKw k` is the
`<name>_to_<k>` keyword method; `choicesMethod` is `<name>_choices`. -/
inductive Attr where
  | prop (hasGet hasSet : Bool)
  | qMethod
  | wMethod (hasConv : Bool)
  | wMethodKw (kw : String)
  | choicesMethod
deriving DecidableEq, Repr

/-- `SubsystemFactory.add_cmd(target, name, cmd_type, ...)` acting on a
class dictionary.  `cmap` stands for the concrete factory's
`converter_map`: for each `cmd_type` it tells whether the base converter
has a query half and a write half (the base class maps every type to
`None` and concrete factories override it, so the presence pair is a
parameter).  `can_query`/`can_write` mask the converter halves through the
`add_can_querywrite_keywords` decorator. -/
def add_cmd (cmap : String → Bool × Bool) (target : List (String × Attr))
    (name cmd_type : String) (can_query can_write : Bool)
    (query_keywords write_keywords : List String) : List (String × Attr) :=
  let target :=
    if cmd_type = "choice" then dset target (name ++ "_choices") .choicesMethod
    else target
  let q := (cmap cmd_type).1 && can_query
  let w := (cmap cmd_type).2 && can_write
  let target :=
    if q && w then dset target name (.prop true true)
    else if q then dset target ("get_" ++ name) .qMethod
    else dset target ((if w then "set_" else "") ++ name) (.wMethod w)
  let target :=
    query_keywords.foldl
      (fun t k => dset t (name ++ "_" ++ k) (.prop true false)) target
  write_keywords.foldl
    (fun t k => dset t (name ++ "_to_" ++ k) (.wMethodKw k)) target

/-- Modelled from the spec: the accessor surface promised by the contract
table of spec section 4.2 for one command — `<name>_choices` for choice
converters, then the base accessor (read/write property, `get_<name>`,
`set_<name>`, or the bare action `<name>`), then a read-only accessor
`<name>_<kw>` per query keyword and a write action `<name>_to_<kw>` per
write keyword.  It exists to be compared with `add_cmd`, which is
translated from the source. -/
def contract_surface (name : String) (isChoice q w : Bool)
    (query_keywords write_keywords : List String) : List (String × Attr) :=
  (if isChoice then [(name ++ "_choices", Attr.choicesMethod)] else [])
  ++ [if q && w then (name, Attr.prop true true)
      else if q then ("get_" ++ name, Attr.qMethod)
      else if w then ("set_" ++ name, Attr.wMethod true)
      else (name, Attr.wMethod false)]
  ++ query_keywords.map (fun k => (name ++ "_" ++ k, Attr.prop true false))
  ++ write_keywords.map (fun k => (name ++ "_to_" ++ k, Attr.wMethodKw k))

/-- `subsystem_init(self, parent, channel_idx=None)`: stores the weak
parent reference and the channel index.  No `keys` mapping is created by
this initializer (and `scpi.py`'s blank-subsystem initializer creates an
empty one), hence `keys := []`. -/
def subsystem_init (parent : Option Unit) (channel_idx : Option ℕ := none) :
    Instance :=
  { parent := parent, channel_idx := channel_idx, keys := [] }

/-- The channel ids generated by `SubsystemFactory.add_subsystem`:
`[i + start_index for i in range(num_channels)]` with `start_index` 0 or 1
per `zero_indexed`. -/
def mkChannelIds (num_channels : ℕ) (zero_indexed : Bool) : List ℕ :=
  (List.range num_channels).map (fun i => i + if zero_indexed then 0 else 1)

/-- The indexed branch of `SubsystemFactory.add_subsystem`: the
`SubSystemDict` comprehension `\x7bc: subsystem(t, channel_idx=c) for c in
ch_ids\x7d` for one target `t` (alive). -/
def add_subsystem_channels (num_channels : ℕ) (zero_indexed : Bool) :
    List (ℕ × Instance) :=
  (mkChannelIds num_channels zero_indexed).map
    (fun c => (c, subsystem_init (some ()) (some c)))

/-- `d[k]` on a `SubSystemDict`: a missing id raises `KeyError` — a plain
`dict` subclass does not auto-create entries. -/
def dgetitem {α : Type} (d : List (ℕ × α)) (k : ℕ) : Except PyErr α :=
  match dget d k with
  | some v => .ok v
  | none => .error (.keyError (.int (k : ℤ)))

/-- `SubSystemDict.rename_channel(old_key, new_key)`:
`self[new_key] = self.pop(old_key)`.  `pop` raises `KeyError` before any
mutation when `old_key` is absent. -/
def rename_channel {α : Type} (d : List (ℕ × α)) (old_key new_key : ℕ) :
    Except PyErr (List (ℕ × α)) :=
  match dget d old_key with
  | none => .error (.keyError (.int (old_key : ℤ)))
  | some x => .ok (dset (dremove d old_key) new_key x)

/-! ### General lemmas about the embedding -/

theorem except_bind_ok {ε α β : Type} (a : α) (f : α → Except ε β) :
    (Except.ok a >>= f) = f a := rfl

theorem except_bind_error {ε α β : Type} (e : ε) (f : α → Except ε β) :
    ((Except.error e : Except ε α) >>= f) = .error e := rfl

theorem string_mk_append (a b : List Char) :
    String.mk a ++ String.mk b = String.mk (a ++ b) := rfl

theorem string_ne_of_count (a b : String) (c : Char)
    (h : a.data.count c ≠ b.data.count c) : a ≠ b :=
  fun he => h (by rw [he])

theorem dget_dset_self {κ α : Type} [DecidableEq κ] (d : List (κ × α))
    (k : κ) (v : α) : dget (dset d k v) k = some v := by
  induction d with
  | nil => simp [dget, dset]
  | cons p rest ih =>
    by_cases h : p.1 = k
    · simp [dset, h, dget]
    · simp [dset, h, dget, ih]

theorem dget_dset_ne {κ α : Type} [DecidableEq κ] (d : List (κ × α))
    (k k' : κ) (v : α) (h : k' ≠ k) : dget (dset d k v) k' = dget d k' := by
  have hkk : ¬k = k' := fun he => h he.symm
  induction d with
  | nil => simp [dget, dset, hkk]
  | cons p rest ih =>
    by_cases hp : p.1 = k
    · have hp' : ¬p.1 = k' := by rw [hp]; exact hkk
      simp [dset, hp, dget, hkk, hp']
    · by_cases hp' : p.1 = k'
      · simp [dset, hp, dget, hp', h]
      · simp [dset, hp, dget, hp', ih]

theorem dget_dremove_ne {κ α : Type} [DecidableEq κ] (d : List (κ × α))
    (k k' : κ) (h : k' ≠ k) : dget (dremove d k) k' = dget d k' := by
  induction d with
  | nil => simp [dremove]
  | cons p rest ih =>
    have hkk : ¬k = k' := fun he => h he.symm
    by_cases hp : p.1 = k
    · simp [dremove, hp, dget, hkk]
    · simp [dremove, hp, dget, ih]

theorem dget_eq_none_of_not_mem {κ α : Type} [DecidableEq κ]
    (d : List (κ × α)) (k : κ) (h : k ∉ d.map Prod.fst) : dget d k = none := by
  induction d with
  | nil => simp [dget]
  | cons p rest ih =>
    simp only [List.map_cons, List.mem_cons] at h
    push_neg at h
    have hp : ¬p.1 = k := fun he => h.1 he.symm
    simp [dget, hp, ih h.2]

theorem dget_dremove_self {κ α : Type} [DecidableEq κ] (d : List (κ × α))
    (k : κ) (hnd : (d.map Prod.fst).Nodup) : dget (dremove d k) k = none := by
  induction d with
  | nil => simp [dremove, dget]
  | cons p rest ih =>
    simp only [List.map_cons, List.nodup_cons] at hnd
    by_cases hp : p.1 = k
    · rw [show dremove (p :: rest) k = rest by simp [dremove, hp]]
      exact dget_eq_none_of_not_mem rest k (hp ▸ hnd.1)
    · simp [dremove, hp, dget, ih hnd.2]

theorem dset_of_not_mem {κ α : Type} [DecidableEq κ] (d : List (κ × α))
    (k : κ) (v : α) (h : k ∉ d.map Prod.fst) : dset d k v = d ++ [(k, v)] := by
  induction d with
  | nil => simp [dset]
  | cons p rest ih =>
    simp only [List.map_cons, List.mem_cons] at h
    push_neg at h
    have hp : ¬p.1 = k := fun he => h.1 he.symm
    simp [dset, hp, ih h.2]

theorem dget_of_mem_nodup {κ α : Type} [DecidableEq κ] (d : List (κ × α))
    (k : κ) (v : α) (hnd : (d.map Prod.fst).Nodup) (hm : (k, v) ∈ d) :
    dget d k = some v := by
  induction d with
  | nil => simp at hm
  | cons p rest ih =>
    simp only [List.map_cons, List.nodup_cons] at hnd
    rcases List.mem_cons.mp hm with h | h
    · simp [dget, ← h]
    · have hk : k ∈ rest.map Prod.fst :=
        List.mem_map.mpr ⟨(k, v), h, rfl⟩
      have hp : p.1 ≠ k := fun he => hnd.1 (he ▸ hk)
      simp [dget, hp, ih hnd.2 h]

theorem dget_map_pair {κ α : Type} [DecidableEq κ] (l : List κ) (f : κ → α)
    (k : κ) :
    dget (l.map (fun c => (c, f c))) k = if k ∈ l then some (f k) else none := by
  induction l with
  | nil => simp [dget]
  | cons c rest ih =>
    by_cases hc : c = k
    · subst hc; simp [dget]
    · have hkc : ¬k = c := fun he => hc he.symm
      simp [dget, hc, ih, List.mem_cons, hkc]

theorem foldl_dset_eq_append {κ α : Type} [DecidableEq κ]
    (ps : List (κ × α)) :
    ∀ d : List (κ × α), ((d ++ ps).map Prod.fst).Nodup →
      ps.foldl (fun t p => dset t p.1 p.2) d = d ++ ps := by
  induction ps with
  | nil => intro d _; simp
  | cons p ps ih =>
    intro d hnd
    rw [List.map_append] at hnd
    have hmem : p.1 ∉ d.map Prod.fst := by
      have hd := (List.nodup_append.mp hnd).2.2
      intro hin
      exact hd hin (by simp)
    have h1 : dset d p.1 p.2 = d ++ [p] := dset_of_not_mem d p.1 p.2 hmem
    have h2 : (((d ++ [p]) ++ ps).map Prod.fst).Nodup := by
      rw [List.append_assoc]
      simpa using hnd
    calc (p :: ps).foldl (fun t q => dset t q.1 q.2) d
        = ps.foldl (fun t q => dset t q.1 q.2) (dset d p.1 p.2) := rfl
      _ = ps.foldl (fun t q => dset t q.1 q.2) (d ++ [p]) := by rw [h1]
      _ = (d ++ [p]) ++ ps := ih (d ++ [p]) h2
      _ = d ++ p :: ps := by simp

theorem tokenizeSt_lit_append (cs : List Char)
    (h : ∀ c ∈ cs, ¬c = lbrace ∧ ¬c = rbrace) (rest : List Char) :
    tokenizeSt (cs ++ rest) none =
      (tokenizeSt rest none).map (fun ts => cs.map Tok.lit ++ ts) := by
  induction cs with
  | nil =>
    cases h : tokenizeSt rest none <;> simp [h]
  | cons c cs ih =>
    have hc := h c (by simp)
    have hcs : ∀ x ∈ cs, ¬x = lbrace ∧ ¬x = rbrace :=
      fun x hx => h x (by simp [hx])
    have step : tokenizeSt (c :: (cs ++ rest)) none =
        (tokenizeSt (cs ++ rest) none).map (fun ts => Tok.lit c :: ts) := by
      simp [tokenizeSt, hc.1, hc.2]
    rw [List.cons_append, step, ih hcs]
    cases h2 : tokenizeSt rest none <;> simp

theorem fill_lit_append (named : List (String × PyVal)) (cs : List Char) :
    ∀ (ts : List Tok) (pos : List PyVal),
      fill named (cs.map Tok.lit ++ ts) pos =
        (fill named ts pos).map (fun t => String.mk cs ++ t) := by
  induction cs with
  | nil =>
    intro ts pos
    cases h : fill named ts pos <;> simp [h, Except.map]
  | cons c cs ih =>
    intro ts pos
    have step : fill named (Tok.lit c :: (List.map Tok.lit cs ++ ts)) pos =
        (fill named (List.map Tok.lit cs ++ ts) pos).map
          (fun t => String.mk [c] ++ t) := by
      simp [fill]
    rw [List.map_cons, List.cons_append, step, ih ts pos]
    cases h : fill named ts pos <;>
      simp [Except.map, ← String.append_assoc, string_mk_append]

theorem fill_missing_named (named : List (String × PyVal)) :
    ∀ (ts : List Tok) (pos : List PyVal) (f : String),
      f ∈ fieldsOf ts → f ≠ "" → dget named f = none →
      ∃ e, fill named ts pos = .error e ∧ isSubstErr e = true := by
  intro ts
  induction ts with
  | nil => intro pos f hf; simp [fieldsOf] at hf
  | cons t ts ih =>
    intro pos f hf hne hmiss
    cases t with
    | lit c =>
      simp only [fieldsOf, List.filterMap_cons] at hf
      obtain ⟨e, he, hs⟩ := ih pos f hf hne hmiss
      exact ⟨e, by simp [fill, he, Except.map], hs⟩
    | field g =>
      by_cases hg : g = ""
      · subst hg
        cases pos with
        | nil => exact ⟨.indexError, by simp [fill], rfl⟩
        | cons a pos2 =>
          simp only [fieldsOf, List.filterMap_cons] at hf
          have hf' : f ∈ fieldsOf ts := by
            rcases List.mem_cons.mp hf with h | h
            · exact absurd h hne
            · exact h
          obtain ⟨e, he, hs⟩ := ih pos2 f hf' hne hmiss
          exact ⟨e, by simp [fill, he, Except.map], hs⟩
      · cases hdg : dget named g with
        | none =>
          exact ⟨.keyError (.str g), by simp [fill, hg, hdg], rfl⟩
        | some v =>
          simp only [fieldsOf, List.filterMap_cons] at hf
          have hf' : f ∈ fieldsOf ts := by
            rcases List.mem_cons.mp hf with h | h
            · subst h; rw [hdg] at hmiss; exact absurd hmiss (by simp)
            · exact h
          obtain ⟨e, he, hs⟩ := ih pos f hf' hne hmiss
          exact ⟨e, by simp [fill, hg, hdg, he, Except.map], hs⟩

theorem fill_empty_field (named : List (String × PyVal)) :
    ∀ ts : List Tok, "" ∈ fieldsOf ts →
      ∃ e, fill named ts [] = .error e ∧ isSubstErr e = true := by
  intro ts
  induction ts with
  | nil => intro hf; simp [fieldsOf] at hf
  | cons t ts ih =>
    intro hf
    cases t with
    | lit c =>
      simp only [fieldsOf, List.filterMap_cons] at hf
      obtain ⟨e, he, hs⟩ := ih hf
      exact ⟨e, by simp [fill, he, Except.map], hs⟩
    | field g =>
      by_cases hg : g = ""
      · subst hg; exact ⟨.indexError, by simp [fill], rfl⟩
      · simp only [fieldsOf, List.filterMap_cons] at hf
        have hf' : "" ∈ fieldsOf ts := by
          rcases List.mem_cons.mp hf with h | h
          · exact absurd h.symm hg
          · exact h
        cases hdg : dget named g with
        | none => exact ⟨.keyError (.str g), by simp [fill, hg, hdg], rfl⟩
        | some v =>
          obtain ⟨e, he, hs⟩ := ih hf'
          exact ⟨e, by simp [fill, hg, hdg, he, Except.map], hs⟩

theorem mem_mkChannelIds (n : ℕ) (zi : Bool) (k : ℕ) :
    k ∈ mkChannelIds n zi ↔
      (if zi then 0 else 1) ≤ k ∧ k < (if zi then 0 else 1) + n := by
  have h : k ∈ mkChannelIds n zi ↔
      ∃ i, i < n ∧ i + (if zi then 0 else 1) = k := by
    simp [mkChannelIds, List.mem_map, List.mem_range]
  rw [h]
  constructor
  · rintro ⟨i, hi, rfl⟩
    cases zi <;> simp <;> omega
  · intro hk
    cases zi
    · simp only [Bool.false_eq_true, if_false] at hk ⊢
      exact ⟨k - 1, by omega, by omega⟩
    · simp only [if_true] at hk ⊢
      exact ⟨k, by omega, by omega⟩

theorem dictInvert_eq_swap (d : List (String × String))
    (hv : (d.map Prod.snd).Nodup) :
    dictInvert d = d.map (fun p => (p.2, p.1)) := by
  have h1 : dictInvert d =
      (d.map (fun p => (p.2, p.1))).foldl (fun a q => dset a q.1 q.2) [] := by
    rw [List.foldl_map]; rfl
  rw [h1, foldl_dset_eq_append (d.map (fun p => (p.2, p.1))) []
    (by simpa using hv)]
  simp

theorem take_drop_first_comma (post : List Char) :
    ∀ pre : List Char, ',' ∉ pre →
      (pre ++ ',' :: post).takeWhile (fun c => c ≠ ',') = pre ∧
      (pre ++ ',' :: post).dropWhile (fun c => c ≠ ',') = ',' :: post := by
  intro pre
  induction pre with
  | nil =>
    intro _
    constructor
    · rw [List.nil_append, List.takeWhile_cons]; simp
    · rw [List.nil_append, List.dropWhile_cons]; simp
  | cons c pre ih =>
    intro h
    simp only [List.mem_cons] at h
    push_neg at h
    have hc : c ≠ ',' := fun he => h.1 he.symm
    have hpc : (fun x => decide (x ≠ ',')) c = true := by simp [hc]
    have hp := ih h.2
    constructor
    · rw [List.cons_append, List.takeWhile_cons, if_pos hpc, hp.1]
    · rw [List.cons_append, List.dropWhile_cons, if_pos hpc, hp.2]

theorem add_cmd_eq_foldl (cmap : String → Bool × Bool)
    (target : List (String × Attr)) (name ctype : String)
    (cq cw : Bool) (qk wk : List String) :
    add_cmd cmap target name ctype cq cw qk wk =
      (contract_surface name (decide (ctype = "choice"))
        ((cmap ctype).1 && cq) ((cmap ctype).2 && cw) qk wk).foldl
        (fun d p => dset d p.1 p.2) target := by
  have hemp : "" ++ name = name := rfl
  simp only [add_cmd, contract_surface]
  generalize ((cmap ctype).1 && cq) = q
  generalize ((cmap ctype).2 && cw) = w
  by_cases hch : ctype = "choice" <;> cases q <;> cases w <;>
    simp [hch, hemp, List.foldl_append, List.foldl_map]

theorem string_data_append (a b : String) :
    (a ++ b).data = a.data ++ b.data := rfl

theorem map_fst_swap (l : List (String × String)) :
    (l.map (fun p => (p.2, p.1))).map Prod.fst = l.map Prod.snd := by
  induction l <;> simp [*]

/-! ### Claims -/

/-- Claim C1 (code_bug): the spec promises that on instantiation of an
indexed prototype every channel instance's `keys` map holds its own channel
id under the index key name, merged with the keys inherited from the
target, so that nested index placeholders format correctly.  The source
never populates any key map: `subsystem_init` stores the id only in the
`channel_idx` attribute and creates no keys mapping, `scpi.py`'s blank
subsystem initializer creates an empty one, and nothing merges keys from
the target.  Evaluating the embedded code at the failing input: all four
channels of an indexed instantiation carry an empty key map, and
dispatching a write whose command template contains the index placeholder
`source` on channel 3 raises `KeyError("source")` instead of producing a
command string containing the ancestor index. -/
theorem claim_C1_keys_never_populated :
    (add_subsystem_channels 4 false).all
      (fun p => decide (p.2.keys = [])) = true ∧
    dget (add_subsystem_channels 4 false) 3 =
      some (subsystem_init (some ()) (some 3)) ∧
    (subsystem_init (some ()) (some 3)).keys = [] ∧
    write_func_fmt "src\x7bsource\x7d:freq" (fun v => .ok v)
      (subsystem_init (some ()) (some 3)) (.int 1) =
      .error (.keyError (.str "source")) :=
  ⟨rfl, rfl, rfl, rfl⟩

/-- Claim C2 (confirmed): `SubsystemFactory.add_cmd` compiles exactly the
accessor surface of the contract table — query+write gives the read/write
property `name`; query-only gives `get_<name>`; write-only gives
`set_<name>`; neither gives the bare action method `<name>`; plus one
read-only property `<name>_<kw>` per query keyword, one `<name>_to_<kw>`
action per write keyword, and `<name>_choices` for choice commands — for
every command whose generated attribute names do not collide.  In
particular a command with `can_write = false` and
`query_keywords = [min, max]` exposes exactly
`get_<name>, <name>_min, <name>_max`. -/
theorem claim_C2_accessor_surface :
    (∀ (cmap : String → Bool × Bool) (name ctype : String) (cq cw : Bool)
       (qk wk : List String),
       ((contract_surface name (decide (ctype = "choice"))
          ((cmap ctype).1 && cq) ((cmap ctype).2 && cw) qk wk).map
          Prod.fst).Nodup →
       add_cmd cmap [] name ctype cq cw qk wk =
         contract_surface name (decide (ctype = "choice"))
           ((cmap ctype).1 && cq) ((cmap ctype).2 && cw) qk wk) ∧
    (∀ (cmap : String → Bool × Bool) (name : String),
       cmap "qty" = (true, true) →
       (add_cmd cmap [] name "qty" true false ["min", "max"] []).map
         Prod.fst = ["get_" ++ name, name ++ "_min", name ++ "_max"]) := by
  constructor
  · intro cmap name ctype cq cw qk wk hnd
    rw [add_cmd_eq_foldl]
    exact foldl_dset_eq_append _ [] (by simpa using hnd)
  · intro cmap name hq
    have hq1 : (cmap "qty").1 = true := by rw [hq]
    have hq2 : (cmap "qty").2 = true := by rw [hq]
    have hgm : ∀ suf : String, suf.data.count 'g' = 0 →
        ("get_" ++ name) ≠ (name ++ suf) := by
      intro suf hsuf
      apply string_ne_of_count _ _ 'g'
      rw [string_data_append, string_data_append, List.count_append,
        List.count_append, hsuf]
      have h1 : ("get_" : String).data.count 'g' = 1 := rfl
      omega
    have hmm : (name ++ "_min") ≠ (name ++ "_max") := by
      intro he
      have hd : name.data ++ ("_min" : String).data =
          name.data ++ ("_max" : String).data := by
        rw [← string_data_append, ← string_data_append, he]
      have hd2 := List.append_cancel_left hd
      exact absurd (congrArg String.mk hd2) (by decide)
    have hcs : contract_surface name (decide (("qty" : String) = "choice"))
        ((cmap "qty").1 && true) ((cmap "qty").2 && false) ["min", "max"] [] =
        [("get_" ++ name, Attr.qMethod),
         (name ++ "_min", Attr.prop true false),
         (name ++ "_max", Attr.prop true false)] := by
      have hmin : name ++ "_" ++ "min" = name ++ "_min" := by
        rw [String.append_assoc]; rfl
      have hmax : name ++ "_" ++ "max" = name ++ "_max" := by
        rw [String.append_assoc]; rfl
      rw [hq1, hq2]
      simp [contract_surface, hmin, hmax]
    have hnd : (([] ++ contract_surface name
        (decide (("qty" : String) = "choice")) ((cmap "qty").1 && true)
        ((cmap "qty").2 && false) ["min", "max"] []).map Prod.fst).Nodup := by
      rw [List.nil_append, hcs]
      simp [List.nodup_cons, hgm "_min" rfl, hgm "_max" rfl, hmm,
        (hgm "_min" rfl).symm, (hgm "_max" rfl).symm]
    rw [add_cmd_eq_foldl, foldl_dset_eq_append _ [] hnd, List.nil_append, hcs]
    simp

/-- Witness for C2 at a concrete command: name `frequency`, converter kind
`qty` with both halves present, `can_write = false`,
`query_keywords = [min, max]`. -/
theorem claim_C2_witness :
    (fun _ : String => ((true, true) : Bool × Bool)) "qty" = (true, true) ∧
    (add_cmd (fun _ => (true, true)) [] "frequency" "qty" true false
      ["min", "max"] []).map Prod.fst =
      ["get_frequency", "frequency_min", "frequency_max"] :=
  ⟨rfl, claim_C2_accessor_surface.2 (fun _ => (true, true)) "frequency" rfl⟩

/-- Claim C3 (corrected): the write half of the boolean converter is
Python `int`, not a truthiness test — `True`/`False` are sent as `1`/`0`,
but the truthy input `4` is sent as `"4"`, contradicting the claim that
every truthy input is sent as exactly `"1"`.  This theorem exhibits the
failure. -/
theorem claim_C3_counterexample :
    write_func_fmt (build_command "cmd:subcmd" none false) scpi_bool_write
      (subsystem_init (some ())) (.int 4) = .ok "cmd:subcmd 4" ∧
    pyTruthy (.int 4) = true ∧
    "cmd:subcmd 4" ≠ "cmd:subcmd 1" :=
  ⟨rfl, rfl, by decide⟩

/-- Claim C3 (corrected), amended: a boolean write sends the decimal
rendering of `int(input)` — exactly `"1"`/`"0"` for the boolean inputs
`True`/`False` (and, e.g., `"4"` for the input `4`) — and the boolean
query converter returns true exactly when the device reply parses as a
non-zero integer, raising the parse failure otherwise. -/
theorem claim_C3_amended :
    (∀ c : String, braceFree c = true → ∀ self : Instance,
       self.parent = some () → ∀ (v : PyVal) (n : ℤ), pyInt v = .ok n →
       write_func_fmt (build_command c none false) scpi_bool_write self v =
         .ok (c ++ " " ++ toString n)) ∧
    (∀ (s : String) (n : ℤ), parseIntStr s = .ok n →
       scpi_bool_query (.str s) = .ok (.bool (decide (n ≠ 0)))) ∧
    (∀ (s : String) (e : PyErr), parseIntStr s = .error e →
       scpi_bool_query (.str s) = .error e) := by
  refine ⟨?_, ?_, ?_⟩
  · intro c hb self hp v n hv
    have hw : scpi_bool_write v = .ok (.int n) := by
      simp [scpi_bool_write, hv, except_bind_ok]
    have hres : resolve_device self = .ok () := by
      simp [resolve_device, hp]
    have hbc : build_command c none false =
        c ++ " " ++ String.mk [lbrace] ++ "value" ++ String.mk [rbrace] := by
      simp [build_command, String.append_empty]
    have hchars : ∀ x ∈ c.data ++ [' '], ¬x = lbrace ∧ ¬x = rbrace := by
      intro x hx
      rcases List.mem_append.mp hx with h | h
      · have := List.all_eq_true.mp hb x h
        simpa using this
      · simp only [List.mem_singleton] at h
        subst h
        exact ⟨by decide, by decide⟩
    have hdata : (build_command c none false).data =
        (c.data ++ [' ']) ++ ([lbrace] ++ ("value".data ++ [rbrace])) := by
      rw [hbc]
      simp [string_data_append, List.append_assoc]
    have htok : tokenize (build_command c none false).data =
        some ((c.data ++ [' ']).map Tok.lit ++ [Tok.field "value"]) := by
      rw [hdata]
      show tokenizeSt _ none = _
      rw [tokenizeSt_lit_append (c.data ++ [' ']) hchars]
      rfl
    have hfill : fill (dset self.keys "value" (.int n))
        ((c.data ++ [' ']).map Tok.lit ++ [Tok.field "value"]) [] =
        .ok (String.mk (c.data ++ [' ']) ++ toString n) := by
      rw [fill_lit_append]
      have hdg : dget (dset self.keys "value" (.int n)) "value" =
          some (.int n) := dget_dset_self _ _ _
      simp [fill, hdg, pyStr, Except.map, String.append_empty]
    have hfmt : pyFormat (build_command c none false) []
        (dset self.keys "value" (.int n)) =
        .ok (c ++ " " ++ toString n) := by
      simp only [pyFormat]
      rw [htok]
      exact hfill
    simp [write_func_fmt, hw, hres, except_bind_ok, hfmt]
  · intro s n h
    simp [scpi_bool_query, pyInt, h, except_bind_ok]
  · intro s e h
    simp [scpi_bool_query, pyInt, h, except_bind_error]

/-- Witness for the amended C3 at concrete inputs: the integer 7 is sent
as `"7"`, and the reply `"0"` queries to false. -/
theorem claim_C3_witness :
    braceFree "cmd:subcmd" = true ∧
    pyInt (.int 7) = .ok 7 ∧
    write_func_fmt (build_command "cmd:subcmd" none false) scpi_bool_write
      (subsystem_init (some ())) (.int 7) =
      .ok ("cmd:subcmd" ++ " " ++ toString (7 : ℤ)) ∧
    parseIntStr "0" = .ok 0 ∧
    scpi_bool_query (.str "0") = .ok (.bool (decide ((0 : ℤ) ≠ 0))) :=
  ⟨rfl, rfl,
   claim_C3_amended.1 "cmd:subcmd" rfl (subsystem_init (some ())) rfl
     (.int 7) 7 rfl,
   rfl, claim_C3_amended.2.1 "0" 0 rfl⟩

/-- Claim C4 (corrected): no `ParentLifetimeError` exists anywhere in the
source.  Invoking an accessor on an instance whose parent has been
destroyed dereferences the dead weak reference to `None` and crashes with
the generic `AttributeError` (`NoneType` has no attribute `device`) — the
kind of unrelated error the claim rules out — rather than a dedicated
lifetime error. -/
theorem claim_C4_counterexample :
    query_func_plain (build_command "cmd:subcmd" none true) scpi_bool_query
      (subsystem_init none) (fun _ => "1") =
      .error (.attributeError "NoneType object has no attribute device") ∧
    PyErr.attributeError "NoneType object has no attribute device" ≠
      PyErr.parentLifetimeError :=
  ⟨rfl, by decide⟩

/-- Claim C4 (corrected), amended: invoking any accessor (each of the five
compiled dispatch shapes) on an instance whose parent has been destroyed
deterministically raises `AttributeError` from the dead weak reference —
it neither silently no-ops nor reaches the transport — but the exception
is the generic attribute error, not a dedicated `ParentLifetimeError`. -/
theorem claim_C4_amended :
    ∀ self : Instance, self.parent = none →
    (∀ cmd : String, write_func_plain cmd self =
       .error (.attributeError "NoneType object has no attribute device")) ∧
    (∀ cmd : String, write_func_fmt_noconv cmd self =
       .error (.attributeError "NoneType object has no attribute device")) ∧
    (∀ (cmd : String) (conv : PyVal → Except PyErr PyVal) (value v : PyVal),
       conv value = .ok v →
       write_func_fmt cmd conv self value =
         .error (.attributeError "NoneType object has no attribute device")) ∧
    (∀ (cmd : String) (conv : PyVal → Except PyErr PyVal)
       (reply : String → String),
       query_func_plain cmd conv self reply =
         .error (.attributeError "NoneType object has no attribute device")) ∧
    (∀ (cmd : String) (conv : PyVal → Except PyErr PyVal)
       (args : List PyVal) (reply : String → String),
       query_func_fmt cmd conv self args reply =
         .error (.attributeError "NoneType object has no attribute device")) := by
  intro self hp
  have hr : resolve_device self =
      .error (.attributeError "NoneType object has no attribute device") := by
    simp [resolve_device, hp]
  refine ⟨?_, ?_, ?_, ?_, ?_⟩ <;> intros <;>
    simp [write_func_plain, write_func_fmt_noconv, write_func_fmt,
      query_func_plain, query_func_fmt, hr, *, except_bind_ok,
      except_bind_error]

/-- Witness for the amended C4 at a concrete dead instance. -/
theorem claim_C4_witness :
    (subsystem_init none).parent = none ∧
    write_func_plain "display:clear" (subsystem_init none) =
      .error (.attributeError "NoneType object has no attribute device") :=
  ⟨rfl, (claim_C4_amended (subsystem_init none) rfl).1 "display:clear"⟩

/-- Claim C5 (confirmed): for a non-percent quantity write accessor, a
quantity of the wrong dimension fails with pint's
`DimensionalityError`, and a bare unit-less number (int, float or string)
fails with `ValueError("Value has no units.")` — the spec's "missing
units" member of the `UnitMismatchError` family.  Both failures happen in
the converter, before the transport is resolved or the command formatted,
so nothing is sent (`write_func_fmt` only yields a sent string on `.ok`). -/
theorem claim_C5_qty_write_errors :
    (∀ (cmd : String) (u : UnitSpec) (self : Instance) (m : ℚ)
       (us : UnitSpec), us.dim ≠ u.dim →
       write_func_fmt cmd (qty_write_converter u) self (.qty m us) =
         .error (.dimensionalityError us.dim u.dim)) ∧
    (∀ (cmd : String) (u : UnitSpec) (self : Instance) (n : ℤ),
       write_func_fmt cmd (qty_write_converter u) self (.int n) =
         .error (.valueError "Value has no units.")) ∧
    (∀ (cmd : String) (u : UnitSpec) (self : Instance) (q : ℚ),
       write_func_fmt cmd (qty_write_converter u) self (.float q) =
         .error (.valueError "Value has no units.")) ∧
    (∀ (cmd : String) (u : UnitSpec) (self : Instance) (s : String),
       write_func_fmt cmd (qty_write_converter u) self (.str s) =
         .error (.valueError "Value has no units.")) ∧
    (∀ unit_str : String, unit_str ≠ "%" →
       (scpi_qty unit_str).write =
         some (qty_write_converter (ureg unit_str))) := by
  refine ⟨?_, ?_, ?_, ?_, ?_⟩
  · intro cmd u self m us hne
    simp [write_func_fmt, qty_write_converter, hne, except_bind_error]
  · intro cmd u self n
    simp [write_func_fmt, qty_write_converter, except_bind_error]
  · intro cmd u self q
    simp [write_func_fmt, qty_write_converter, except_bind_error]
  · intro cmd u self s
    simp [write_func_fmt, qty_write_converter, except_bind_error]
  · intro unit_str hu
    simp [scpi_qty, hu]

/-- Witness for C5: writing 234 metre and the bare number 234 to a
Hz-based command both fail, with the dimensionality and missing-units
errors respectively. -/
theorem claim_C5_witness :
    (ureg "m").dim ≠ (ureg "Hz").dim ∧
    ("Hz" : String) ≠ "%" ∧
    write_func_fmt (build_command "cmd:frequency" none false)
      (qty_write_converter (ureg "Hz")) (subsystem_init (some ()))
      (.qty 234 (ureg "m")) =
      .error (.dimensionalityError "length" "frequency") ∧
    write_func_fmt (build_command "cmd:frequency" none false)
      (qty_write_converter (ureg "Hz")) (subsystem_init (some ()))
      (.int 234) = .error (.valueError "Value has no units.") :=
  ⟨by decide, by decide,
   claim_C5_qty_write_errors.1 (build_command "cmd:frequency" none false)
     (ureg "Hz") (subsystem_init (some ())) 234 (ureg "m") (by decide),
   claim_C5_qty_write_errors.2.1 (build_command "cmd:frequency" none false)
     (ureg "Hz") (subsystem_init (some ())) 234⟩

/-- Claim C6 (confirmed): a compiled command string containing a
placeholder with no corresponding key — in the instance's key map merged
with the caller-supplied `value` for writes, or among the positional
arguments and (empty) keyword arguments for queries — makes the dispatch
fail with a substitution error (`KeyError`/`IndexError` from the format
step), and the command is never handed to the transport: in this embedding
`write_func_fmt`/`query_func_fmt` reach the transport only on `.ok`, and
both results here are `.error`. -/
theorem claim_C6_substitution :
    (∀ (cmd : String) (conv : PyVal → Except PyErr PyVal) (self : Instance)
       (value v : PyVal) (ts : List Tok) (f : String),
       conv value = .ok v → self.parent = some () →
       tokenize cmd.data = some ts → f ∈ fieldsOf ts →
       dget (dset self.keys "value" v) f = none →
       ∃ e, write_func_fmt cmd conv self value = .error e ∧
         isSubstErr e = true) ∧
    (∀ (cmd : String) (conv : PyVal → Except PyErr PyVal) (self : Instance)
       (args : List PyVal) (reply : String → String) (ts : List Tok)
       (f : String),
       self.parent = some () → tokenize cmd.data = some ts →
       f ∈ fieldsOf ts → f ≠ "" →
       ∃ e, query_func_fmt cmd conv self args reply = .error e ∧
         isSubstErr e = true) := by
  constructor
  · intro cmd conv self value v ts f hc hp htok hf hmiss
    have hres : resolve_device self = .ok () := by
      simp [resolve_device, hp]
    by_cases hfe : f = ""
    · subst hfe
      obtain ⟨e, he, hs⟩ := fill_empty_field (dset self.keys "value" v) ts hf
      refine ⟨e, ?_, hs⟩
      simp only [write_func_fmt, hc, hres, except_bind_ok, pyFormat, htok]
      exact he
    · obtain ⟨e, he, hs⟩ :=
        fill_missing_named (dset self.keys "value" v) ts [] f hf hfe hmiss
      refine ⟨e, ?_, hs⟩
      simp only [write_func_fmt, hc, hres, except_bind_ok, pyFormat, htok]
      exact he
  · intro cmd conv self args reply ts f hp htok hf hfe
    have hres : resolve_device self = .ok () := by
      simp [resolve_device, hp]
    have hm : dget ([] : List (String × PyVal)) f = none := rfl
    obtain ⟨e, he, hs⟩ := fill_missing_named [] ts args f hf hfe hm
    refine ⟨e, ?_, hs⟩
    simp only [query_func_fmt, hres, except_bind_ok, pyFormat, htok, he,
      except_bind_error]

/-- Witness for C6: dispatching a write of the command
`src\x7bch\x7d:freq` on an instance whose key map has no `ch` entry fails
with a substitution error. -/
theorem claim_C6_witness :
    (fun v : PyVal => (Except.ok v : Except PyErr PyVal)) (.int 1) =
      .ok (.int 1) ∧
    (subsystem_init (some ())).parent = some () ∧
    tokenize ("src\x7bch\x7d:freq").data =
      some [Tok.lit 's', Tok.lit 'r', Tok.lit 'c', Tok.field "ch",
        Tok.lit ':', Tok.lit 'f', Tok.lit 'r', Tok.lit 'e', Tok.lit 'q'] ∧
    "ch" ∈ fieldsOf [Tok.lit 's', Tok.lit 'r', Tok.lit 'c', Tok.field "ch",
        Tok.lit ':', Tok.lit 'f', Tok.lit 'r', Tok.lit 'e', Tok.lit 'q'] ∧
    dget (dset (subsystem_init (some ())).keys "value" (.int 1)) "ch" =
      none ∧
    (∃ e, write_func_fmt "src\x7bch\x7d:freq" (fun v => .ok v)
        (subsystem_init (some ())) (.int 1) = .error e ∧
      isSubstErr e = true) :=
  ⟨rfl, rfl, rfl, by decide, rfl,
   claim_C6_substitution.1 "src\x7bch\x7d:freq" (fun v => .ok v)
     (subsystem_init (some ())) (.int 1) (.int 1)
     [Tok.lit 's', Tok.lit 'r', Tok.lit 'c', Tok.field "ch",
      Tok.lit ':', Tok.lit 'f', Tok.lit 'r', Tok.lit 'e', Tok.lit 'q']
     "ch" rfl rfl rfl (by decide) rfl⟩

/-- Claim C7 (corrected): the choice converter is built from the dict
inversion `\x7bv: k for k, v in choices.items()\x7d`, so when two
application keys map to the same device token the later key overwrites the
earlier one and the round trip fails: with the mapping
`[a -> X, b -> X]`, writing `a` sends `X` but querying `X` returns `b`. -/
theorem claim_C7_counterexample :
    scpi_choice_write [("a", "X"), ("b", "X")] (.str "a") = .ok (.str "X") ∧
    scpi_choice_query [("a", "X"), ("b", "X")] (.str "X") = .ok (.str "b") ∧
    ("b" : String) ≠ "a" :=
  ⟨rfl, rfl, by decide⟩

/-- Claim C7 (corrected), amended: for every choice mapping whose keys are
distinct and whose device tokens are distinct (an injective mapping), the
converter round-trips — writing an application key sends its device token
and querying that token returns the key — while writing an unmapped key or
querying an unrecognized token raises the lookup error (`KeyError`, the
spec's `ChoiceLookupError`). -/
theorem claim_C7_amended :
    ∀ choices : List (String × String),
    (choices.map Prod.fst).Nodup → (choices.map Prod.snd).Nodup →
    (∀ k v, (k, v) ∈ choices →
       scpi_choice_write choices (.str k) = .ok (.str v) ∧
       scpi_choice_query choices (.str v) = .ok (.str k)) ∧
    (∀ k, k ∉ choices.map Prod.fst →
       scpi_choice_write choices (.str k) = .error (.keyError (.str k))) ∧
    (∀ t, t ∉ choices.map Prod.snd →
       scpi_choice_query choices (.str t) = .error (.keyError (.str t))) := by
  intro choices hk hv
  have hinv := dictInvert_eq_swap choices hv
  refine ⟨?_, ?_, ?_⟩
  · intro k v hm
    constructor
    · simp [scpi_choice_write, dget_of_mem_nodup choices k v hk hm]
    · have hm2 : (v, k) ∈ choices.map (fun p => (p.2, p.1)) :=
        List.mem_map.mpr ⟨(k, v), hm, rfl⟩
      have hnd2 : ((choices.map (fun p => (p.2, p.1))).map Prod.fst).Nodup := by
        rw [map_fst_swap]; exact hv
      simp [scpi_choice_query, hinv,
        dget_of_mem_nodup (choices.map (fun p => (p.2, p.1))) v k hnd2 hm2]
  · intro k hkm
    simp [scpi_choice_write, dget_eq_none_of_not_mem choices k hkm]
  · intro t htm
    have ht2 : t ∉ (choices.map (fun p => (p.2, p.1))).map Prod.fst := by
      rw [map_fst_swap]; exact htm
    simp [scpi_choice_query, hinv,
      dget_eq_none_of_not_mem (choices.map (fun p => (p.2, p.1))) t ht2]

/-- Witness for the amended C7 on the mapping of the spec's example. -/
theorem claim_C7_witness :
    (([("sinusoid", "SIN"), ("square", "SQU")].map
      (Prod.fst (α := String) (β := String))).Nodup) ∧
    (([("sinusoid", "SIN"), ("square", "SQU")].map
      (Prod.snd (α := String) (β := String))).Nodup) ∧
    scpi_choice_write [("sinusoid", "SIN"), ("square", "SQU")]
      (.str "sinusoid") = .ok (.str "SIN") ∧
    scpi_choice_query [("sinusoid", "SIN"), ("square", "SQU")]
      (.str "SQU") = .ok (.str "square") ∧
    scpi_choice_write [("sinusoid", "SIN"), ("square", "SQU")]
      (.str "triangle") = .error (.keyError (.str "triangle")) :=
  ⟨by decide, by decide,
   ((claim_C7_amended [("sinusoid", "SIN"), ("square", "SQU")] (by decide)
      (by decide)).1 "sinusoid" "SIN" (by decide)).1,
   ((claim_C7_amended [("sinusoid", "SIN"), ("square", "SQU")] (by decide)
      (by decide)).1 "square" "SQU" (by decide)).2,
   (claim_C7_amended [("sinusoid", "SIN"), ("square", "SQU")] (by decide)
      (by decide)).2.1 "triangle" (by decide)⟩

/-- Claim C8 (corrected): `parse_errors` strips the quoted portion with
`strip(quote)`, which removes every leading and trailing quote character,
not exactly one: the reply `1,""x""` — of the form `<int>,"<text>"` with
`<text> = "x"` — parses to `(1, x)`, not `(1, "x")`. -/
theorem claim_C8_counterexample :
    parse_errors (.str "1,\"\"x\"\"") = .ok (.pair (.int 1) (.str "x")) ∧
    PyVal.str "x" ≠ PyVal.str "\"x\"" :=
  ⟨rfl, by decide⟩

/-- Claim C8 (corrected), amended: the error converter's query splits the
reply at the first comma into the integer code and the message with all
leading and trailing quote characters stripped (for the well-formed reply
`+0,"No Error"` this yields `(0, No Error)`); it has no write function,
and assigning through the compiled error property raises `AttributeError`
(the property has no setter — the spec's `NotSupportedError`). -/
theorem claim_C8_amended :
    (∀ (pre post : List Char) (n : ℤ), ',' ∉ pre →
       parseIntStr (String.mk pre) = .ok n →
       parse_errors (.str (String.mk (pre ++ ',' :: post))) =
         .ok (.pair (.int n) (.str (pyStrip '"' (String.mk post))))) ∧
    parse_errors (.str "+0,\"No Error\"") =
      .ok (.pair (.int 0) (.str "No Error")) ∧
    scpi_error.write = none ∧
    (∀ (base : String) (self : Instance) (v : PyVal),
       prop_set (add_scpi_cmd_property base scpi_error) self v =
         .error (.attributeError "cannot set attribute")) := by
  refine ⟨?_, rfl, rfl, ?_⟩
  · intro pre post n hpre hn
    have hsplit := take_drop_first_comma post pre hpre
    simp only [parse_errors, splitOnceComma, hsplit.1, hsplit.2, hn,
      except_bind_ok]
    rfl
  · intro base self v
    rfl

/-- Witness for the amended C8 at the reply `42,"ok"`. -/
theorem claim_C8_witness :
    (',' ∉ ['4', '2']) ∧
    parseIntStr (String.mk ['4', '2']) = .ok 42 ∧
    parse_errors (.str (String.mk (['4', '2'] ++ ',' :: ['"', 'o', 'k', '"']))) =
      .ok (.pair (.int 42) (.str (pyStrip '"' (String.mk ['"', 'o', 'k', '"'])))) :=
  ⟨by decide, rfl,
   claim_C8_amended.1 ['4', '2'] ['"', 'o', 'k', '"'] 42 (by decide) rfl⟩

/-- Claim C9 (corrected), amended: instantiating an indexed prototype with
`num_channels = n` produces exactly the contiguous channel ids
`s, s+1, ..., s+n-1` with `s` 0 or 1 per `zero_indexed`, and looking up
any id outside that range raises `KeyError` (the collection is a plain
dict subclass and never auto-creates an entry).  The contiguity invariant
holds at instantiation but is not preserved by every operation of the
collection (see the counterexample). -/
theorem claim_C9_amended :
    ∀ (n : ℕ) (zi : Bool) (k : ℕ),
    dgetitem (add_subsystem_channels n zi) k =
      if (if zi then 0 else 1) ≤ k ∧ k < (if zi then 0 else 1) + n
      then .ok (subsystem_init (some ()) (some k))
      else .error (.keyError (.int (k : ℤ))) := by
  intro n zi k
  have hg : dget (add_subsystem_channels n zi) k =
      if k ∈ mkChannelIds n zi then some (subsystem_init (some ()) (some k))
      else none := by
    simp [add_subsystem_channels, dget_map_pair]
  by_cases hmem : (if zi then 0 else 1) ≤ k ∧ k < (if zi then 0 else 1) + n
  · have hin : k ∈ mkChannelIds n zi := (mem_mkChannelIds n zi k).mpr hmem
    simp [dgetitem, hg, hin, hmem]
  · have hout : k ∉ mkChannelIds n zi :=
      fun hh => hmem ((mem_mkChannelIds n zi k).mp hh)
    simp [dgetitem, hg, hout, hmem]

/-- Claim C9 (corrected): the id-set invariant is not preserved by every
operation of the collection — `rename_channel` on the two-channel
collection `\x7b1, 2\x7d`, renaming 1 to 5, leaves the id set
`\x7b2, 5\x7d`, which is not contiguous (2 and 5 present, 3 absent). -/
theorem claim_C9_counterexample :
    rename_channel (add_subsystem_channels 2 false) 1 5 =
      .ok [(2, subsystem_init (some ()) (some 2)),
           (5, subsystem_init (some ()) (some 1))] ∧
    dget [(2, subsystem_init (some ()) (some 2)),
          (5, subsystem_init (some ()) (some 1))] 2 =
      some (subsystem_init (some ()) (some 2)) ∧
    dget [(2, subsystem_init (some ()) (some 2)),
          (5, subsystem_init (some ()) (some 1))] 3 = none ∧
    dget [(2, subsystem_init (some ()) (some 2)),
          (5, subsystem_init (some ()) (some 1))] 5 =
      some (subsystem_init (some ()) (some 1)) ∧
    ((2 : ℕ) < 3 ∧ (3 : ℕ) < 5) :=
  ⟨rfl, rfl, rfl, rfl, by decide⟩

/-- Claim C10 (confirmed): for a channel collection with distinct ids,
`rename_channel old new` moves exactly the instance stored at `old` to
`new`: afterwards `new` maps to the instance previously at `old`, `old` is
gone (when `old` differs from `new`), and every other id maps to the same
instance as before; when `old` is absent the call fails with `KeyError`
before any mutation (`pop` raises first, and the embedding returns only
the error, so the collection is unchanged). -/
theorem claim_C10_rename :
    ∀ {α : Type} (d : List (ℕ × α)) (old_key new_key : ℕ),
    (d.map Prod.fst).Nodup →
    (∀ d', rename_channel d old_key new_key = .ok d' →
       dget d' new_key = dget d old_key ∧
       (old_key ≠ new_key → dget d' old_key = none) ∧
       (∀ k, k ≠ old_key → k ≠ new_key → dget d' k = dget d k)) ∧
    (dget d old_key = none →
       rename_channel d old_key new_key =
         .error (.keyError (.int (old_key : ℤ)))) := by
  intro α d old new hnd
  constructor
  · intro d' hd'
    cases hget : dget d old with
    | none => simp [rename_channel, hget] at hd'
    | some x =>
      simp only [rename_channel, hget, Except.ok.injEq] at hd'
      subst hd'
      refine ⟨?_, ?_, ?_⟩
      · rw [dget_dset_self]
      · intro hne
        rw [dget_dset_ne _ _ _ _ hne, dget_dremove_self _ _ hnd]
      · intro k hko hkn
        rw [dget_dset_ne _ _ _ _ hkn, dget_dremove_ne _ _ _ hko]
  · intro hget
    simp [rename_channel, hget]

/-- Witness for C10 on the concrete collection `[1 -> 10, 2 -> 20]`,
renaming 1 to 5. -/
theorem claim_C10_witness :
    (([(1, 10), (2, 20)] : List (ℕ × ℕ)).map Prod.fst).Nodup ∧
    rename_channel ([(1, 10), (2, 20)] : List (ℕ × ℕ)) 1 5 =
      .ok [(2, 20), (5, 10)] ∧
    dget ([(2, 20), (5, 10)] : List (ℕ × ℕ)) 5 =
      dget ([(1, 10), (2, 20)] : List (ℕ × ℕ)) 1 ∧
    dget ([(2, 20), (5, 10)] : List (ℕ × ℕ)) 1 = none ∧
    dget ([(2, 20), (5, 10)] : List (ℕ × ℕ)) 2 =
      dget ([(1, 10), (2, 20)] : List (ℕ × ℕ)) 2 :=
  ⟨by decide, rfl,
   ((claim_C10_rename [(1, 10), (2, 20)] 1 5 (by decide)).1
     [(2, 20), (5, 10)] rfl).1,
   ((claim_C10_rename [(1, 10), (2, 20)] 1 5 (by decide)).1
     [(2, 20), (5, 10)] rfl).2.1 (by decide),
   ((claim_C10_rename [(1, 10), (2, 20)] 1 5 (by decide)).1
     [(2, 20), (5, 10)] rfl).2.2 2 (by decide) (by decide)⟩

end Patchbay
